import Mathlib

/-!
Shallow embedding of the crawl-dashboard service (`src/app.py`), a read-only
Flask application over a single Postgres table `articles`.  The table is
modelled as a `List Article`; timestamps are epoch seconds (`Int`); SQL
`NULL` is `Option.none`.  Each route handler is embedded as a pure function
of the table; the SQL fragments the handlers build are embedded as the
corresponding string values, and Postgres `ILIKE` matching is embedded as an
executable pattern matcher.
-/

/-- Row of the `articles` table.  `title`, `author`, `url` and `crawled_at`
are nullable in the store, hence `Option`. -/
structure Article where
  id : Nat
  title : Option String
  author : Option String
  url : Option String
  crawled_at : Option Int
deriving DecidableEq

/- ### Python `int(...)` and Flask `request.args.get(key, default, type=int)` -/

/-- Digit-run parser used by `pythonInt`: consumes decimal digits, allowing a
single underscore between two digits (Python numeric-literal rule); a
leading, trailing or doubled underscore is rejected. -/
def digitsCore : List Char → Nat → Option Nat
  | [], acc => some acc
  | c :: rest, acc =>
    if c.isDigit then digitsCore rest (acc * 10 + (c.toNat - 48))
    else if c = '_' then
      match rest with
      | d :: rest2 =>
        if d.isDigit then digitsCore rest2 ((acc * 10 + (d.toNat - 48))) else none
      | [] => none
    else none

/-- Unsigned decimal parser: first character must be a digit. -/
def parseNatDigits : List Char → Option Nat
  | [] => none
  | c :: rest => if c.isDigit then digitsCore rest (c.toNat - 48) else none

/-- Whitespace stripped by Python `int(...)` around a numeric string. -/
def isPySpace (c : Char) : Bool :=
  c = ' ' || c = '\t' || c = '\n' || c = '\r' ||
    c = (Char.ofNat 11) || c = (Char.ofNat 12)

/-- Python `str.strip()` on a character sequence. -/
def pyStrip (l : List Char) : List Char :=
  ((l.dropWhile isPySpace).reverse.dropWhile isPySpace).reverse

/-- Model of Python `int(s)` on a string: strip surrounding whitespace, allow
an optional sign, then decimal digits (with Python's underscore rule);
returns `none` where Python raises `ValueError`. -/
def pythonInt (s : String) : Option Int :=
  match pyStrip s.data with
  | '+' :: rest => (parseNatDigits rest).map (fun n => (n : Int))
  | '-' :: rest => (parseNatDigits rest).map (fun n => -(n : Int))
  | rest => (parseNatDigits rest).map (fun n => (n : Int))

/-- Model of Flask `request.args.get(key, default, type=int)`: a missing
parameter yields the default, and a present value whose conversion raises
`ValueError` also yields the default. -/
def flaskGetInt (arg : Option String) (default : Int) : Int :=
  match arg with
  | none => default
  | some v => (pythonInt v).getD default

/-- Model of Flask `request.args.get(key, '')`: a missing parameter is
indistinguishable from an empty value. -/
def paramValue (arg : Option String) : String := arg.getD ""

/- ### Postgres `ILIKE` pattern matching -/

/-- Executable model of Postgres `ILIKE` pattern matching over characters:
`%` matches any sequence, `_` matches exactly one character, a backslash
escapes the following pattern character, and plain characters compare
case-insensitively. -/
def likeMatch : List Char → List Char → Bool
  | [], t => t.isEmpty
  | c :: ps, t =>
    if c = '%' then
      t.tails.any (fun suffixPart => likeMatch ps suffixPart)
    else if c = '\\' then
      match ps, t with
      | c2 :: ps2, a :: t2 => (Char.toLower a == Char.toLower c2) && likeMatch ps2 t2
      | _, _ => false
    else
      match t with
      | [] => false
      | a :: t2 =>
        (if c = '_' then true else Char.toLower a == Char.toLower c) && likeMatch ps t2

/-- Pattern built by the listing handler: `f-string` interpolation
`%{search}%` around the raw search value. -/
def mkPattern (s : String) : String := "%" ++ s ++ "%"

/-- SQL `column ILIKE pattern` on a nullable column: `NULL ILIKE p` is not
true, so a null column never matches. -/
def ilikeB (pat : String) : Option String → Bool
  | none => false
  | some t => likeMatch pat.data t.data

/- ### The listing route `/articles` (`articles` in `app.py`) -/

/-- WHERE fragment `(title ILIKE %s OR author ILIKE %s)` evaluated on a row,
with the two bound parameters both `mkPattern search`. -/
def searchMatchB (search : String) (a : Article) : Bool :=
  ilikeB (mkPattern search) a.title || ilikeB (mkPattern search) a.author

/-- WHERE fragment `author = %s` evaluated on a row; SQL equality against a
`NULL` author is not true. -/
def authorEqB (f : String) (a : Article) : Bool :=
  match a.author with
  | some x => x == f
  | none => false

/-- Conjunction of the WHERE fragments the handler includes: the search
clause when `search` is truthy (non-empty) and the author clause when
`author` is truthy; with no clause the query says `1=1`. -/
def rowMatchB (search authorF : String) (a : Article) : Bool :=
  (if search = "" then true else searchMatchB search a) &&
  (if authorF = "" then true else authorEqB authorF a)

/-- Rows selected by the listing's WHERE clause. -/
def matchedRows (t : List Article) (search authorF : String) : List Article :=
  t.filter (rowMatchB search authorF)

/-- `SELECT COUNT(*) ... WHERE ...` of the listing. -/
def totalCount (t : List Article) (search authorF : String) : Nat :=
  (matchedRows t search authorF).length

/-- Fixed page size `per_page = 50`. -/
def perPage : Nat := 50

/-- Python `(total + per_page - 1) // per_page`. -/
def totalPagesOf (t : List Article) (search authorF : String) : Nat :=
  (totalCount t search authorF + perPage - 1) / perPage

/-- Ordering used by `ORDER BY crawled_at DESC`: Postgres sorts `NULL` first
in descending order, so a null key precedes every non-null key. -/
def timeDescLe (a b : Option Int) : Bool :=
  match a, b with
  | none, _ => true
  | some _, none => false
  | some x, some y => decide (y ≤ x)

/-- Row order produced by `ORDER BY crawled_at DESC`. -/
def crawledDesc (a b : Article) : Prop := timeDescLe a.crawled_at b.crawled_at = true

instance : DecidableRel crawledDesc := fun a b => by
  unfold crawledDesc; infer_instance

instance : IsTotal Article crawledDesc := by
  constructor
  intro a b
  unfold crawledDesc timeDescLe
  rcases a.crawled_at with _ | x <;> rcases b.crawled_at with _ | y <;>
    simp [decide_eq_true_eq]
  exact Int.le_total y x

instance : IsTrans Article crawledDesc := by
  constructor
  intro a b c
  unfold crawledDesc timeDescLe
  rcases a.crawled_at with _ | x <;> rcases b.crawled_at with _ | y <;>
    rcases c.crawled_at with _ | z <;> simp [decide_eq_true_eq]
  exact fun h1 h2 => le_trans h2 h1

/-- Result list of `ORDER BY crawled_at DESC` (ties in arbitrary order). -/
def sortDesc (l : List Article) : List Article := List.insertionSort crawledDesc l

/-- String ascending order for `ORDER BY author`. -/
def strLe (x y : String) : Prop := ¬ y < x

instance : DecidableRel strLe := fun x y => by
  unfold strLe; infer_instance

/-- `SELECT DISTINCT author FROM articles WHERE author IS NOT NULL ORDER BY
author` evaluated on the table. -/
def distinctAuthors (t : List Article) : List String :=
  List.insertionSort strLe (t.filterMap (fun a => a.author)).dedup

/-- Rendering context the listing returns. -/
structure ArticlesOutput where
  rows : List Article
  page : Int
  total_pages : Nat
  total : Nat
  search : String
  author_filter : String
  authors : List String
deriving DecidableEq

/-- Listing pipeline after parameter coercion: builds the WHERE clause from
the (possibly empty) `search` and `author` values, counts matches, fetches
one page at `OFFSET (page-1)*50 LIMIT 50`, and computes
`total_pages = (total + 49) // 50`.  Postgres rejects a negative `OFFSET`,
so a page below 1 makes the request fail (`none`). -/
def articlesRunVals (t : List Article) (search authorF : String) (page : Int) :
    Option ArticlesOutput :=
  if (page - 1) * 50 < 0 then none
  else some {
    rows := (((sortDesc (matchedRows t search authorF)).drop
      ((page - 1) * 50).toNat).take 50),
    page := page,
    total_pages := (totalCount t search authorF + perPage - 1) / perPage,
    total := totalCount t search authorF,
    search := search,
    author_filter := authorF,
    authors := distinctAuthors t }

/-- Full `/articles` handler from raw request parameters:
`page = request.args.get('page', 1, type=int)`,
`search = request.args.get('search', '')`,
`author = request.args.get('author', '')`. -/
def articlesRun (t : List Article) (pageArg searchArg authorArg : Option String) :
    Option ArticlesOutput :=
  articlesRunVals t (paramValue searchArg) (paramValue authorArg)
    (flaskGetInt pageArg 1)

/- ### The author-profile route `/author/<author_name>` -/

/-- Aggregate row of the profile query `SELECT COUNT(*), MIN(crawled_at),
MAX(crawled_at) ... WHERE author = %s`; SQL `MIN`/`MAX` over no rows is
`NULL`. -/
structure AuthorStats where
  article_count : Nat
  first_article : Option Int
  latest_article : Option Int
deriving DecidableEq

/-- Rows of the given author (`WHERE author = %s`). -/
def authorRows (t : List Article) (name : String) : List Article :=
  t.filter (fun a => authorEqB name a)

/-- Full `/author/<author_name>` handler: aggregate stats plus the author's
articles ordered by `crawled_at` descending.  The aggregate query always
returns exactly one row, so the handler never fails on an unknown name. -/
def authorProfileRun (t : List Article) (name : String) :
    AuthorStats × List Article :=
  (⟨(authorRows t name).length,
    ((authorRows t name).filterMap (fun a => a.crawled_at)).min?,
    ((authorRows t name).filterMap (fun a => a.crawled_at)).max?⟩,
   sortDesc (authorRows t name))

/- ### The daily-stats route `/api/stats` -/

/-- Thirty days, in seconds: the `INTERVAL` in
`WHERE crawled_at > NOW() - INTERVAL [30 days]`. -/
def windowSeconds : Int := 30 * 86400

/-- Calendar date of a timestamp, `DATE(crawled_at)`, as a day number
(floor division of epoch seconds by 86400). -/
def dateOf (ts : Int) : Int := ts.fdiv 86400

/-- Window filter of the stats query; a `NULL` timestamp never satisfies the
comparison. -/
def inWindowB (now : Int) (a : Article) : Bool :=
  match a.crawled_at with
  | some ts => decide (now - windowSeconds < ts)
  | none => false

/-- Rows inside the trailing 30-day window. -/
def eligibleRows (t : List Article) (now : Int) : List Article :=
  t.filter (inWindowB now)

/-- Date key a row is grouped under (rows reaching the grouping always have
a timestamp, so the default is never used there). -/
def articleDate (a : Article) : Int := dateOf (a.crawled_at.getD 0)

/-- Distinct dates of the grouped query, in ascending order
(`GROUP BY DATE(crawled_at) ORDER BY date`). -/
def statDates (t : List Article) (now : Int) : List Int :=
  List.insertionSort (fun x y : Int => x ≤ y)
    ((eligibleRows t now).map articleDate).dedup

/-- Result rows of `/api/stats`: one `(date, COUNT(*))` pair per distinct
date in the window, ascending by date. -/
def dailyCounts (t : List Article) (now : Int) : List (Int × Nat) :=
  (statDates t now).map
    (fun d => (d, (eligibleRows t now).countP (fun a => articleDate a == d)))

/- ### The CSV export route `/api/export/csv` -/

/-- Python `value or ''` on a nullable text field: `None` renders as the
empty string (and an empty string stays empty). -/
def renderText (o : Option String) : String :=
  match o with
  | some s => s
  | none => ""

/-- Gregorian date of a day number (days since 1970-01-01), by the standard
civil-from-days construction. -/
def civilFromDays (z0 : Int) : Int × Int × Int :=
  let z := z0 + 719468
  let era := z.fdiv 146097
  let doe := z - era * 146097
  let yoe := (doe - doe.fdiv 1460 + doe.fdiv 36524 - doe.fdiv 146096).fdiv 365
  let y := yoe + era * 400
  let doy := doe - (365 * yoe + yoe.fdiv 4 - yoe.fdiv 100)
  let mp := (5 * doy + 2).fdiv 153
  let d := doy - (153 * mp + 2).fdiv 5 + 1
  let m := mp + (if mp < 10 then 3 else -9)
  (if m ≤ 2 then y + 1 else y, m, d)

/-- Two-digit zero padding of strftime numeric fields. -/
def pad2 (n : Int) : String :=
  if n < 10 then "0" ++ toString n else toString n

/-- Model of `strftime([%]Y-[%]m-[%]d [%]H:[%]M:[%]S)` on an epoch-seconds
timestamp. -/
def formatTimestamp (ts : Int) : String :=
  let days := ts.fdiv 86400
  let secs := ts.fmod 86400
  let ymd := civilFromDays days
  toString ymd.1 ++ "-" ++ pad2 ymd.2.1 ++ "-" ++ pad2 ymd.2.2 ++ " " ++
    pad2 (secs.fdiv 3600) ++ ":" ++ pad2 ((secs.fmod 3600).fdiv 60) ++ ":" ++
    pad2 (secs.fmod 60)

/-- The export's `crawled_at` field: empty string for `NULL`, otherwise the
formatted timestamp. -/
def renderTime (o : Option Int) : String :=
  match o with
  | some ts => formatTimestamp ts
  | none => ""

/-- One `writer.writerow([...])` call of the export loop: always exactly
four fields. -/
def csvRow (a : Article) : List String :=
  [renderText a.title, renderText a.author, renderText a.url,
   renderTime a.crawled_at]

/-- Header row written before the data rows. -/
def csvHeader : List String := ["Title", "Author", "URL", "Crawled At"]

/-- Data rows of the CSV export: all articles ordered by `crawled_at`
descending, one row each. -/
def csvDataRows (t : List Article) : List (List String) :=
  (sortDesc t).map csvRow

/- ### SQL text built by the listing (injection shape) -/

/-- SQL single-quote character, used to spell the `INTERVAL` literals. -/
def sqlQuote : String := String.singleton (Char.ofNat 39)

/-- Search clause text appended when `search` is truthy. -/
def searchClauseSql : String := "(title ILIKE %s OR author ILIKE %s)"

/-- Author clause text appended when `author` is truthy. -/
def authorClauseSql : String := "author = %s"

/-- The `where_clauses` list the handler builds. -/
def whereClauses (search authorF : String) : List String :=
  (if search = "" then [] else [searchClauseSql]) ++
    (if authorF = "" then [] else [authorClauseSql])

/-- Python `" AND ".join(where_clauses) if where_clauses else "1=1"`. -/
def whereSql (search authorF : String) : String :=
  if whereClauses search authorF = [] then "1=1"
  else String.intercalate " AND " (whereClauses search authorF)

/-- Text of the listing's COUNT query. -/
def countQuerySql (search authorF : String) : String :=
  "SELECT COUNT(*) as total FROM articles WHERE " ++ whereSql search authorF

/-- Text of the listing's page query. -/
def listQuerySql (search authorF : String) : String :=
  "\n        SELECT id, title, author, url, crawled_at \n        FROM articles \n        WHERE " ++
    whereSql search authorF ++
    "\n        ORDER BY crawled_at DESC \n        LIMIT %s OFFSET %s\n    "

/-- Bound string parameters the listing passes alongside the SQL text (the
trailing `LIMIT`/`OFFSET` parameters are program integers, not user
strings). -/
def articlesQueryParams (search authorF : String) : List String :=
  (if search = "" then [] else [mkPattern search, mkPattern search]) ++
    (if authorF = "" then [] else [authorF])

/- ### Every SQL statement each route executes -/

/-- Statements of the `/` overview handler, in execution order. -/
def indexStatements : List String :=
  ["SELECT COUNT(*) as total FROM articles",
   "SELECT COUNT(DISTINCT author) as total FROM articles WHERE author IS NOT NULL",
   "\n        SELECT COUNT(*) as recent \n        FROM articles \n        WHERE crawled_at > NOW() - INTERVAL " ++
     sqlQuote ++ "24 hours" ++ sqlQuote ++ "\n    ",
   "\n        SELECT MIN(crawled_at) as first, MAX(crawled_at) as last \n        FROM articles\n    ",
   "\n        SELECT author, COUNT(*) as article_count \n        FROM articles \n        WHERE author IS NOT NULL \n        GROUP BY author \n        ORDER BY article_count DESC \n        LIMIT 10\n    ",
   "\n        SELECT title, author, url, crawled_at \n        FROM articles \n        ORDER BY crawled_at DESC \n        LIMIT 20\n    "]

/-- Statements of the `/articles` listing handler. -/
def articlesStatements (search authorF : String) : List String :=
  [countQuerySql search authorF,
   listQuerySql search authorF,
   "\n        SELECT DISTINCT author \n        FROM articles \n        WHERE author IS NOT NULL \n        ORDER BY author\n    "]

/-- Statements of the `/author/<author_name>` handler. -/
def authorStatements : List String :=
  ["\n        SELECT COUNT(*) as article_count,\n               MIN(crawled_at) as first_article,\n               MAX(crawled_at) as latest_article\n        FROM articles \n        WHERE author = %s\n    ",
   "\n        SELECT title, url, crawled_at \n        FROM articles \n        WHERE author = %s \n        ORDER BY crawled_at DESC\n    "]

/-- Statement of the `/api/stats` handler. -/
def apiStatsStatements : List String :=
  ["\n        SELECT DATE(crawled_at) as date, COUNT(*) as count\n        FROM articles\n        WHERE crawled_at > NOW() - INTERVAL " ++
     sqlQuote ++ "30 days" ++ sqlQuote ++
     "\n        GROUP BY DATE(crawled_at)\n        ORDER BY date\n    "]

/-- Statement of the `/api/export/csv` handler. -/
def exportCsvStatements : List String :=
  ["\n        SELECT title, author, url, crawled_at \n        FROM articles \n        ORDER BY crawled_at DESC\n    "]

/-- The six routes of the service. -/
inductive Route where
  | index
  | articles
  | authorProfile
  | apiStats
  | exportPage
  | exportCsv
deriving DecidableEq

/-- SQL statements a route executes, given the listing's (coerced) `search`
and `author` values; `/export` runs no query. -/
def routeStatements : Route → String → String → List String
  | Route.index, _, _ => indexStatements
  | Route.articles, s, a => articlesStatements s a
  | Route.authorProfile, _, _ => authorStatements
  | Route.apiStats, _, _ => apiStatsStatements
  | Route.exportPage, _, _ => []
  | Route.exportCsv, _, _ => exportCsvStatements

/-- ASCII whitespace of the SQL statement texts. -/
def isSpaceChar (c : Char) : Bool := c = ' ' || c = '\n' || c = '\t' || c = '\r'

/-- Statement classifier: the text begins with `SELECT` once leading
whitespace is dropped. -/
def isSelectStatement (q : String) : Bool :=
  List.isPrefixOf "SELECT".data (q.data.dropWhile isSpaceChar)

/- ### Connection lifecycle of a handler (for the release-on-error claim) -/

/-- Database-facing steps of a handler body, in source order: acquire the
connection, run each query, close the connection.  (Cursor creation and
close are connection-neutral and omitted.) -/
inductive DbAction where
  | openConn
  | runQuery (i : Nat)
  | closeConn
deriving DecidableEq

/-- Outcome of running a handler body: whether it completed without an
exception, and whether the connection is open when control leaves the
handler. -/
structure DbRunResult where
  completed : Bool
  connOpen : Bool
deriving DecidableEq

/-- Interpreter of a handler's database steps: a failing query raises, which
aborts the remaining steps immediately (there is no `try`/`finally` or
`with` block in the handlers), leaving the connection in whatever state it
had. -/
def runActions (fails : Nat → Bool) : List DbAction → Bool → DbRunResult
  | [], isOpen => ⟨true, isOpen⟩
  | DbAction.openConn :: rest, _ => runActions fails rest true
  | DbAction.closeConn :: rest, _ => runActions fails rest false
  | DbAction.runQuery i :: rest, isOpen =>
    if fails i then ⟨false, isOpen⟩ else runActions fails rest isOpen

/-- Database steps of the `/` handler: open, six queries, close. -/
def indexActions : List DbAction :=
  [DbAction.openConn, DbAction.runQuery 0, DbAction.runQuery 1,
   DbAction.runQuery 2, DbAction.runQuery 3, DbAction.runQuery 4,
   DbAction.runQuery 5, DbAction.closeConn]

/-- Database steps of the `/articles` handler: open, three queries, close. -/
def articlesActions : List DbAction :=
  [DbAction.openConn, DbAction.runQuery 0, DbAction.runQuery 1,
   DbAction.runQuery 2, DbAction.closeConn]

/-- Database steps of the `/author/<author_name>` handler. -/
def authorActions : List DbAction :=
  [DbAction.openConn, DbAction.runQuery 0, DbAction.runQuery 1,
   DbAction.closeConn]

/-- Database steps of the `/api/stats` handler. -/
def apiStatsActions : List DbAction :=
  [DbAction.openConn, DbAction.runQuery 0, DbAction.closeConn]

/-- Database steps of the `/api/export/csv` handler. -/
def exportCsvActions : List DbAction :=
  [DbAction.openConn, DbAction.runQuery 0, DbAction.closeConn]

/- ### Specification-side notions the claims compare against -/

/-- Lower-cased character sequence of a string (case folding of the
case-insensitivity claims). -/
def lowerChars (s : String) : List Char := s.data.map Char.toLower

/-- Case-insensitive substring relation of the search claim: the folded
needle occurs contiguously inside the folded haystack. -/
def ciSubstr (s t : String) : Prop := lowerChars s <:+: lowerChars t

/-- Case-insensitive substring against a nullable column: a null column
contains nothing. -/
def ciSubstrOpt (s : String) : Option String → Prop
  | none => False
  | some t => ciSubstr s t

instance : (s : String) → (o : Option String) → Decidable (ciSubstrOpt s o)
  | _, none => isFalse (fun h => h)
  | s, some t => List.decidableInfix (lowerChars s) (lowerChars t)

/-- Ceiling division, the claims' `ceil(total / 50)`. -/
def ceilDivSpec (a b : Nat) : Nat := a / b + (if a % b = 0 then 0 else 1)

/-! ### Shared helper lemmas -/

theorem sortDesc_length (l : List Article) : (sortDesc l).length = l.length :=
  (List.perm_insertionSort crawledDesc l).length_eq

theorem sortDesc_mem {l : List Article} {a : Article} :
    a ∈ sortDesc l ↔ a ∈ l :=
  (List.perm_insertionSort crawledDesc l).mem_iff

theorem sortDesc_sorted (l : List Article) :
    List.Sorted crawledDesc (sortDesc l) :=
  List.sorted_insertionSort crawledDesc l

/-! ### C1 — connection release on every exit path -/

/-- Claim C1 (status: code bug).  The handlers call `conn.close()` only as a
straight-line statement; there is no `try`/`finally` or context manager, so
when a query raises, the close is skipped and the connection is left open.
This theorem evaluates the handler bodies at a failing input (every query
raises) and at the success path: on failure each handler exits with the
connection still open, while the success path does close it. -/
theorem conn_left_open_on_query_error :
    (runActions (fun _ => true) indexActions false).connOpen = true
    ∧ (runActions (fun _ => true) articlesActions false).connOpen = true
    ∧ (runActions (fun _ => true) authorActions false).connOpen = true
    ∧ (runActions (fun _ => true) apiStatsActions false).connOpen = true
    ∧ (runActions (fun _ => true) exportCsvActions false).connOpen = true
    ∧ (runActions (fun _ => false) indexActions false).connOpen = false
    ∧ (runActions (fun _ => false) articlesActions false).connOpen = false
    ∧ (runActions (fun _ => false) authorActions false).connOpen = false
    ∧ (runActions (fun _ => false) apiStatsActions false).connOpen = false
    ∧ (runActions (fun _ => false) exportCsvActions false).connOpen = false :=
  ⟨rfl, rfl, rfl, rfl, rfl, rfl, rfl, rfl, rfl, rfl⟩

/-! ### C6 — author profile with zero matching rows -/

/-- Claim C6.  For an author name with no matching rows, the profile returns
article count 0, `NULL` first/latest aggregates, and an empty article list,
without an error (the handler is a total function). -/
theorem author_profile_empty (t : List Article) (name : String)
    (h : ∀ a ∈ t, a.author ≠ some name) :
    (authorProfileRun t name).1.article_count = 0
    ∧ (authorProfileRun t name).1.first_article = none
    ∧ (authorProfileRun t name).1.latest_article = none
    ∧ (authorProfileRun t name).2 = [] := by
  have hrows : authorRows t name = [] := by
    rw [authorRows, List.filter_eq_nil_iff]
    intro a ha
    unfold authorEqB
    cases haut : a.author with
    | none => simp
    | some x =>
      simp only [beq_iff_eq, Bool.not_eq_true]
      intro hx
      exact absurd (haut.trans (congrArg some hx)) (h a ha)
  simp [authorProfileRun, hrows, sortDesc]

/-- Witness for C6 at a concrete table and name. -/
theorem author_profile_empty_witness :
    (authorProfileRun [⟨1, some "A", some "bob", none, some 5⟩] "carol").1.article_count = 0
    ∧ (authorProfileRun [⟨1, some "A", some "bob", none, some 5⟩] "carol").1.first_article = none
    ∧ (authorProfileRun [⟨1, some "A", some "bob", none, some 5⟩] "carol").1.latest_article = none
    ∧ (authorProfileRun [⟨1, some "A", some "bob", none, some 5⟩] "carol").2 = [] :=
  author_profile_empty [⟨1, some "A", some "bob", none, some 5⟩] "carol" (by decide)

/-! ### C9 — malformed page parameter -/

/-- Claim C9.  A present but unparseable `page` parameter falls back to the
default page 1 (Flask catches the `ValueError` of the `int` coercion). -/
theorem malformed_page_defaults (s : String) (h : pythonInt s = none) :
    flaskGetInt (some s) 1 = 1 := by
  simp [flaskGetInt, h]

/-- Witness for C9 at the concrete parameter value `abc`. -/
theorem malformed_page_defaults_witness :
    pythonInt "abc" = none ∧ flaskGetInt (some "abc") 1 = 1 :=
  ⟨by decide, malformed_page_defaults "abc" (by decide)⟩

/-! ### C10 — empty-string parameters behave as absent -/

/-- Claim C10.  A `search` or `author` parameter that is present but empty
yields exactly the behaviour of an absent parameter: the handler coerces a
missing value to the empty string and tests truthiness, so no WHERE clause
is added in either case (in particular an empty `author` parameter does not
filter down to rows whose author is the empty string). -/
theorem empty_param_same_as_absent (t : List Article) (pa sa aa : Option String) :
    articlesRun t pa (some "") aa = articlesRun t pa none aa
    ∧ articlesRun t pa sa (some "") = articlesRun t pa sa none :=
  ⟨rfl, rfl⟩

/-! ### C7 — SQL text determined by parameter pattern -/

/-- Claim C7 counterexample.  Two listing requests whose `search` parameter
is present in both (once with the empty value, once with `a`) have the same
presence pattern but build different SQL texts: the handler tests
truthiness, not presence, so a present-but-empty parameter drops its WHERE
clause. -/
theorem sql_text_presence_cx :
    (some "" : Option String).isSome = (some "a" : Option String).isSome
    ∧ countQuerySql (paramValue (some "")) (paramValue none)
        ≠ countQuerySql (paramValue (some "a")) (paramValue none) :=
  ⟨rfl, by decide⟩

/-- Claim C7 as amended.  For any two listing requests whose optional
parameters have the same non-emptiness pattern (absent and present-empty
coincide), the SQL texts of the count query and of the page query are
identical; the user-supplied values influence only the bound parameter
list, never the SQL text. -/
theorem sql_text_nonemptiness (s1 a1 s2 a2 : String)
    (hs : s1 = "" ↔ s2 = "") (ha : a1 = "" ↔ a2 = "") :
    countQuerySql s1 a1 = countQuerySql s2 a2
    ∧ listQuerySql s1 a1 = listQuerySql s2 a2 := by
  have hw : whereSql s1 a1 = whereSql s2 a2 := by
    unfold whereSql whereClauses
    by_cases h1 : s1 = ""
    · have g1 : s2 = "" := hs.mp h1
      by_cases h2 : a1 = ""
      · have g2 : a2 = "" := ha.mp h2
        simp [h1, h2, g1, g2]
      · have g2 : ¬ a2 = "" := fun c => h2 (ha.mpr c)
        simp [h1, h2, g1, g2]
    · have g1 : ¬ s2 = "" := fun c => h1 (hs.mpr c)
      by_cases h2 : a1 = ""
      · have g2 : a2 = "" := ha.mp h2
        simp [h1, h2, g1, g2]
      · have g2 : ¬ a2 = "" := fun c => h2 (ha.mpr c)
        simp [h1, h2, g1, g2]
  exact ⟨by unfold countQuerySql; rw [hw], by unfold listQuerySql; rw [hw]⟩

/-- Witness for the amended C7 at concrete parameter values. -/
theorem sql_text_nonemptiness_witness :
    countQuerySql "foo" "bob" = countQuerySql "BAR" "eve"
    ∧ listQuerySql "foo" "bob" = listQuerySql "BAR" "eve" :=
  sql_text_nonemptiness "foo" "bob" "BAR" "eve" (by decide) (by decide)

/-! ### C8 — the service only reads -/

/-- Claim C8.  Every SQL statement any route executes is a `SELECT`
statement (its text begins with `SELECT` after leading whitespace); no
route ever issues an `INSERT`, `UPDATE` or `DELETE`, so handling a request
leaves the `articles` table unchanged — in this embedding every handler is
accordingly a pure function of the table. -/
theorem routes_only_select (r : Route) (s a : String) :
    ∀ q ∈ routeStatements r s a, isSelectStatement q = true := by
  cases r with
  | articles =>
    intro q hq
    simp only [routeStatements, articlesStatements, List.mem_cons,
      List.not_mem_nil, or_false] at hq
    rcases hq with rfl | rfl | rfl
    · unfold countQuerySql whereSql whereClauses
      by_cases h1 : s = "" <;> by_cases h2 : a = "" <;> simp [h1, h2] <;> decide
    · unfold listQuerySql whereSql whereClauses
      by_cases h1 : s = "" <;> by_cases h2 : a = "" <;> simp [h1, h2] <;> decide
    · decide
  | index =>
    intro q hq
    simp only [routeStatements, indexStatements, List.mem_cons,
      List.not_mem_nil, or_false] at hq
    rcases hq with rfl | rfl | rfl | rfl | rfl | rfl <;> decide
  | authorProfile =>
    intro q hq
    simp only [routeStatements, authorStatements, List.mem_cons,
      List.not_mem_nil, or_false] at hq
    rcases hq with rfl | rfl <;> decide
  | apiStats =>
    intro q hq
    simp only [routeStatements, apiStatsStatements, List.mem_cons,
      List.not_mem_nil, or_false] at hq
    rcases hq with rfl
    decide
  | exportPage =>
    intro q hq
    simp [routeStatements] at hq
  | exportCsv =>
    intro q hq
    simp only [routeStatements, exportCsvStatements, List.mem_cons,
      List.not_mem_nil, or_false] at hq
    rcases hq with rfl
    decide

/-- Witness for C8 at the overview route's first statement. -/
theorem routes_only_select_witness :
    isSelectStatement "SELECT COUNT(*) as total FROM articles" = true :=
  routes_only_select Route.index "" "" "SELECT COUNT(*) as total FROM articles"
    (by decide)

/-! ### C2 — pagination arithmetic -/

/-- Claim C2.  For every table state and page ≥ 1 the listing succeeds,
reports `total_pages = ceil(total_matching / 50)`, serves the slice at
offset `(page-1)*50` with limit 50 of the matching rows in `crawled_at`
descending order, and at `page = total_pages + 1` (beyond the data range)
the row set is empty while the request still succeeds. -/
theorem listing_pagination_correct (t : List Article) (s af : String)
    (page : Int) (hpage : 1 ≤ page) :
    ∃ out, articlesRunVals t s af page = some out
      ∧ out.total_pages = ceilDivSpec (totalCount t s af) 50
      ∧ out.rows = ((sortDesc (matchedRows t s af)).drop
          ((page - 1) * 50).toNat).take 50
      ∧ (page = (totalPagesOf t s af : Int) + 1 → out.rows = []) := by
  have hoff : ¬ ((page - 1) * 50 < 0) := by omega
  unfold articlesRunVals
  rw [if_neg hoff]
  refine ⟨_, rfl, ?_, rfl, ?_⟩
  · show (totalCount t s af + perPage - 1) / perPage = ceilDivSpec (totalCount t s af) 50
    simp only [perPage, ceilDivSpec]
    split_ifs with h <;> omega
  · intro hp
    show (((sortDesc (matchedRows t s af)).drop ((page - 1) * 50).toNat).take 50) = []
    have hlen : (sortDesc (matchedRows t s af)).length = totalCount t s af := by
      rw [sortDesc_length]; rfl
    have hidx : totalCount t s af ≤ ((page - 1) * 50).toNat := by
      subst hp
      simp only [totalPagesOf, perPage]
      omega
    rw [List.drop_eq_nil_of_le (by rw [hlen]; exact hidx)]
    exact List.take_nil

/-- Witness for C2 at a one-row table: page 2 is one past `total_pages = 1`
and comes back empty. -/
theorem listing_pagination_correct_witness :
    ∃ out, articlesRunVals [⟨1, some "A", some "bob", none, some 5⟩] "" "" 2 = some out
      ∧ out.total_pages = ceilDivSpec (totalCount [⟨1, some "A", some "bob", none, some 5⟩] "" "") 50
      ∧ out.rows = ((sortDesc (matchedRows [⟨1, some "A", some "bob", none, some 5⟩] "" "")).drop
          (((2 : Int) - 1) * 50).toNat).take 50
      ∧ ((2 : Int) = (totalPagesOf [⟨1, some "A", some "bob", none, some 5⟩] "" "" : Int) + 1 → out.rows = []) :=
  listing_pagination_correct [⟨1, some "A", some "bob", none, some 5⟩] "" "" 2 (by decide)

/-! ### C4 — CSV export shape -/

/-- Claim C4.  The CSV export has one data row per article, every data row
has exactly four fields, the rows are ordered by `crawled_at` descending
(`NULL` timestamps first, as Postgres orders them), and a null title,
author, url or timestamp is rendered as the empty string — in particular
never as the text `None` or `null`. -/
theorem csv_export_correct (t : List Article) :
    (csvDataRows t).length = t.length
    ∧ (∀ r ∈ csvDataRows t, r.length = 4)
    ∧ List.Sorted crawledDesc (sortDesc t)
    ∧ (∀ a ∈ t,
        (a.title = none → (csvRow a).getD 0 "?" = "")
        ∧ (a.author = none → (csvRow a).getD 1 "?" = "")
        ∧ (a.url = none → (csvRow a).getD 2 "?" = "")
        ∧ (a.crawled_at = none → (csvRow a).getD 3 "?" = "")) := by
  refine ⟨?_, ?_, sortDesc_sorted t, ?_⟩
  · rw [csvDataRows, List.length_map, sortDesc_length]
  · intro r hr
    obtain ⟨a, _, rfl⟩ := List.mem_map.mp hr
    rfl
  · intro a _
    refine ⟨?_, ?_, ?_, ?_⟩ <;> intro h <;>
      simp [csvRow, renderText, renderTime, h]

/-- Witness for C4 at a concrete two-row table with null fields. -/
theorem csv_export_correct_witness :
    (csvDataRows [⟨1, none, some "bob", none, some 5⟩, ⟨2, some "B", none, some "u", none⟩]).length
      = [⟨1, none, some "bob", none, some 5⟩, (⟨2, some "B", none, some "u", none⟩ : Article)].length
    ∧ (csvRow ⟨1, none, some "bob", none, some 5⟩).length = 4
    ∧ ((⟨1, none, some "bob", none, some 5⟩ : Article).title = none →
        (csvRow ⟨1, none, some "bob", none, some 5⟩).getD 0 "?" = "")
    ∧ ((⟨2, some "B", none, some "u", none⟩ : Article).crawled_at = none →
        (csvRow ⟨2, some "B", none, some "u", none⟩).getD 3 "?" = "") := by
  have h := csv_export_correct
    [⟨1, none, some "bob", none, some 5⟩, ⟨2, some "B", none, some "u", none⟩]
  refine ⟨h.1, ?_, ?_, ?_⟩
  · exact h.2.1 (csvRow ⟨1, none, some "bob", none, some 5⟩)
      (by exact List.mem_map.mpr ⟨_, by rw [sortDesc_mem]; exact List.mem_cons_self .., rfl⟩)
  · exact (h.2.2.2 ⟨1, none, some "bob", none, some 5⟩ (List.mem_cons_self ..)).1
  · exact (h.2.2.2 ⟨2, some "B", none, some "u", none⟩
      (List.mem_cons_of_mem _ (List.mem_cons_self ..))).2.2.2

/-! ### C5 — daily stats grouping -/

theorem dailyCounts_fst (t : List Article) (now : Int) :
    (dailyCounts t now).map Prod.fst = statDates t now := by
  unfold dailyCounts
  rw [List.map_map]
  have hc : (Prod.fst ∘ fun d : Int =>
      (d, (eligibleRows t now).countP (fun a => articleDate a == d))) = id := rfl
  rw [hc, List.map_id]

theorem mem_statDates {t : List Article} {now d : Int} :
    d ∈ statDates t now ↔ ∃ a ∈ eligibleRows t now, articleDate a = d := by
  unfold statDates
  rw [List.mem_insertionSort, List.mem_dedup, List.mem_map]

/-- Claim C5.  The daily-stats output is ascending in date, every entry's
count is positive and equals the number of in-window articles of that date,
each date appears at most once, and every date with at least one article in
the trailing 30-day window appears. -/
theorem daily_stats_correct (t : List Article) (now : Int) :
    List.Sorted (fun p q : Int × Nat => p.1 ≤ q.1) (dailyCounts t now)
    ∧ (∀ e ∈ dailyCounts t now,
        0 < e.2 ∧ e.2 = (eligibleRows t now).countP (fun a => articleDate a == e.1))
    ∧ ((dailyCounts t now).map Prod.fst).Nodup
    ∧ (∀ a ∈ t, ∀ ts, a.crawled_at = some ts → now - windowSeconds < ts →
        dateOf ts ∈ (dailyCounts t now).map Prod.fst) := by
  refine ⟨?_, ?_, ?_, ?_⟩
  · have hs : List.Sorted (fun x y : Int => x ≤ y) (statDates t now) :=
      List.sorted_insertionSort _ _
    exact List.Pairwise.map _ (fun a b h => h) hs
  · intro e he
    obtain ⟨d, hd, rfl⟩ := List.mem_map.mp he
    refine ⟨?_, rfl⟩
    obtain ⟨a, ha, had⟩ := mem_statDates.mp hd
    exact List.countP_pos_iff.mpr ⟨a, ha, by simp [had]⟩
  · rw [dailyCounts_fst]
    unfold statDates
    exact ((List.perm_insertionSort _ _).nodup_iff).mpr (List.nodup_dedup _)
  · intro a ha ts hts hwin
    rw [dailyCounts_fst, mem_statDates]
    refine ⟨a, List.mem_filter.mpr ⟨ha, ?_⟩, ?_⟩
    · simp [inWindowB, hts, hwin]
    · simp [articleDate, hts]

/-- Witness for C5 at a concrete table and query time: day 0 has two
articles in the window, and the article at timestamp 10 contributes its
date. -/
theorem daily_stats_correct_witness :
    (0 < (((0 : Int), 2) : Int × Nat).2
      ∧ (((0 : Int), 2) : Int × Nat).2 =
          (eligibleRows [⟨1, none, none, none, some 0⟩, ⟨2, none, none, none, some 10⟩,
            ⟨3, none, none, none, some 86400⟩] 1000).countP
            (fun a => articleDate a == (((0 : Int), 2) : Int × Nat).1))
    ∧ dateOf 10 ∈ (dailyCounts [⟨1, none, none, none, some 0⟩, ⟨2, none, none, none, some 10⟩,
        ⟨3, none, none, none, some 86400⟩] 1000).map Prod.fst :=
  ⟨(daily_stats_correct [⟨1, none, none, none, some 0⟩, ⟨2, none, none, none, some 10⟩,
      ⟨3, none, none, none, some 86400⟩] 1000).2.1 ((0 : Int), 2) (by decide),
   (daily_stats_correct [⟨1, none, none, none, some 0⟩, ⟨2, none, none, none, some 10⟩,
      ⟨3, none, none, none, some 86400⟩] 1000).2.2.2
     ⟨2, none, none, none, some 10⟩ (by decide) 10 rfl (by decide)⟩

/-! ### C3 — search filter semantics -/

theorem likeMatch_percent_cons (ps t : List Char) :
    likeMatch ('%' :: ps) t = t.tails.any (fun s2 => likeMatch ps s2) := by
  rw [likeMatch.eq_def]
  simp

theorem likeMatch_percent_iff (ps t : List Char) :
    likeMatch ('%' :: ps) t = true ↔ ∃ t2, t2 <:+ t ∧ likeMatch ps t2 = true := by
  rw [likeMatch_percent_cons, List.any_eq_true]
  simp only [List.mem_tails]

theorem likeMatch_plain_nil (c : Char) (ps : List Char)
    (h1 : c ≠ '%') (h2 : c ≠ '\\') :
    likeMatch (c :: ps) [] = false := by
  rw [likeMatch.eq_def]
  simp [if_neg h1, if_neg h2]

theorem likeMatch_plain_cons (c : Char) (ps : List Char) (a : Char) (t2 : List Char)
    (h1 : c ≠ '%') (h2 : c ≠ '\\') (h3 : c ≠ '_') :
    likeMatch (c :: ps) (a :: t2) =
      ((Char.toLower a == Char.toLower c) && likeMatch ps t2) := by
  rw [likeMatch.eq_def]
  simp [if_neg h1, if_neg h2, if_neg h3]

theorem likeMatch_plain_iff (s t : List Char)
    (hs : ∀ c ∈ s, c ≠ '%' ∧ c ≠ '_' ∧ c ≠ '\\') :
    (likeMatch s t = true ↔ t.map Char.toLower = s.map Char.toLower) := by
  induction s generalizing t with
  | nil => cases t <;> simp [likeMatch]
  | cons c s ih =>
    obtain ⟨h1, h3, h2⟩ := hs c (List.mem_cons_self c s)
    have hs' : ∀ x ∈ s, x ≠ '%' ∧ x ≠ '_' ∧ x ≠ '\\' :=
      fun x hx => hs x (List.mem_cons_of_mem c hx)
    cases t with
    | nil =>
      rw [likeMatch_plain_nil c s h1 h2]
      simp
    | cons a t2 =>
      rw [likeMatch_plain_cons c s a t2 h1 h2 h3, Bool.and_eq_true, beq_iff_eq,
        ih t2 hs']
      simp [List.map_cons]

theorem likeMatch_plain_percent_iff (s : List Char) (t : List Char)
    (hs : ∀ c ∈ s, c ≠ '%' ∧ c ≠ '_' ∧ c ≠ '\\') :
    (likeMatch (s ++ ['%']) t = true ↔
      ∃ u v, t = u ++ v ∧ u.map Char.toLower = s.map Char.toLower) := by
  induction s generalizing t with
  | nil =>
    simp only [List.nil_append]
    rw [likeMatch_percent_iff]
    constructor
    · intro _
      exact ⟨[], t, rfl, rfl⟩
    · intro _
      exact ⟨[], List.nil_suffix, rfl⟩
  | cons c s ih =>
    obtain ⟨h1, h3, h2⟩ := hs c (List.mem_cons_self c s)
    have hs' : ∀ x ∈ s, x ≠ '%' ∧ x ≠ '_' ∧ x ≠ '\\' :=
      fun x hx => hs x (List.mem_cons_of_mem c hx)
    cases t with
    | nil =>
      rw [List.cons_append, likeMatch_plain_nil c (s ++ ['%']) h1 h2]
      constructor
      · intro h
        exact absurd h (by simp)
      · rintro ⟨u, v, huv, hmap⟩
        obtain ⟨rfl, rfl⟩ := List.append_eq_nil.mp huv.symm
        simp at hmap
    | cons a t2 =>
      rw [List.cons_append, likeMatch_plain_cons c (s ++ ['%']) a t2 h1 h2 h3,
        Bool.and_eq_true, beq_iff_eq, ih t2 hs']
      constructor
      · rintro ⟨hac, u, v, rfl, hmap⟩
        exact ⟨a :: u, v, rfl, by simp [hmap, hac]⟩
      · rintro ⟨u, v, huv, hmap⟩
        cases u with
        | nil => simp at hmap
        | cons u0 u' =>
          rw [List.cons_append] at huv
          injection huv with ha ht
          simp only [List.map_cons, List.cons.injEq] at hmap
          obtain ⟨hm1, hm2⟩ := hmap
          exact ⟨by rw [ha]; exact hm1, u', v, ht, hm2⟩

theorem likeMatch_infix_iff (s t : List Char)
    (hs : ∀ c ∈ s, c ≠ '%' ∧ c ≠ '_' ∧ c ≠ '\\') :
    (likeMatch ('%' :: (s ++ ['%'])) t = true ↔
      s.map Char.toLower <:+: t.map Char.toLower) := by
  rw [likeMatch_percent_iff]
  constructor
  · rintro ⟨t2, ⟨t1, rfl⟩, h⟩
    rw [likeMatch_plain_percent_iff s t2 hs] at h
    obtain ⟨u, v, rfl, hu⟩ := h
    exact ⟨t1.map Char.toLower, v.map Char.toLower, by simp [hu]⟩
  · rintro ⟨p, q, hpq⟩
    have h1 : t.map Char.toLower = p ++ (s.map Char.toLower ++ q) := by
      rw [← hpq]; simp
    obtain ⟨t1, rest, rfl, hmt1, hrest⟩ := List.map_eq_append_iff.mp h1
    obtain ⟨u, v, rfl, hu, hv⟩ := List.map_eq_append_iff.mp hrest
    refine ⟨u ++ v, ⟨t1, rfl⟩, ?_⟩
    rw [likeMatch_plain_percent_iff s (u ++ v) hs]
    exact ⟨u, v, rfl, hu⟩

theorem mkPattern_data (s : String) :
    (mkPattern s).data = '%' :: (s.data ++ ['%']) := by
  simp [mkPattern]

theorem ilikeB_iff (s : String) (o : Option String)
    (hs : ∀ c ∈ s.data, c ≠ '%' ∧ c ≠ '_' ∧ c ≠ '\\') :
    (ilikeB (mkPattern s) o = true ↔ ciSubstrOpt s o) := by
  cases o with
  | none => simp [ilikeB, ciSubstrOpt]
  | some t =>
    show likeMatch (mkPattern s).data t.data = true ↔ ciSubstr s t
    rw [mkPattern_data, likeMatch_infix_iff s.data t.data hs]
    exact Iff.rfl

/-- Claim C3 counterexample.  The search string `_` is a raw `ILIKE`
wildcard: the pattern built around it matches the one-character title `x`,
so the filter selects a row of which `_` is not a case-insensitive
substring of either the title or the author. -/
theorem search_filter_wildcard_cx :
    rowMatchB "_" "" ⟨1, some "x", none, none, some 0⟩ = true
    ∧ ¬ (ciSubstrOpt "_" (Article.title ⟨1, some "x", none, none, some 0⟩)
          ∨ ciSubstrOpt "_" (Article.author ⟨1, some "x", none, none, some 0⟩)) :=
  ⟨by decide, by decide⟩

theorem searchMatchB_iff (s : String) (a : Article)
    (hw : ∀ c ∈ s.data, c ≠ '%' ∧ c ≠ '_' ∧ c ≠ '\\') :
    (searchMatchB s a = true ↔ (ciSubstrOpt s a.title ∨ ciSubstrOpt s a.author)) := by
  unfold searchMatchB
  rw [Bool.or_eq_true]
  exact or_congr (ilikeB_iff s a.title hw) (ilikeB_iff s a.author hw)

/-- Claim C3 as amended.  For every non-empty search string containing no
`ILIKE` metacharacter (`%`, `_`, backslash): with no author filter, the
listing selects a row exactly when the search string is a case-insensitive
substring of its title or of its author; and with a non-empty author
filter, a row is selected exactly when it satisfies both the search
predicate and author equality (conjunction). -/
theorem search_filter_ci_substring (s af : String) (a : Article)
    (hs : s ≠ "")
    (hw : ∀ c ∈ s.data, c ≠ '%' ∧ c ≠ '_' ∧ c ≠ '\\') :
    (rowMatchB s "" a = true ↔ (ciSubstrOpt s a.title ∨ ciSubstrOpt s a.author))
    ∧ (af ≠ "" →
        (rowMatchB s af a = true ↔
          ((ciSubstrOpt s a.title ∨ ciSubstrOpt s a.author) ∧ a.author = some af))) := by
  constructor
  · unfold rowMatchB
    rw [if_neg hs, if_pos rfl, Bool.and_true]
    exact searchMatchB_iff s a hw
  · intro haf
    unfold rowMatchB
    rw [if_neg hs, if_neg haf, Bool.and_eq_true]
    apply and_congr
    · exact searchMatchB_iff s a hw
    · unfold authorEqB
      cases a.author <;> simp

/-- Witness for the amended C3: a search-only request matching a row with a
null author case-insensitively through its title, and a combined request
against a row satisfying both clauses. -/
theorem search_filter_ci_substring_witness :
    (rowMatchB "ab" "" ⟨1, some "xAby", none, none, some 0⟩ = true ↔
      (ciSubstrOpt "ab" (Article.title ⟨1, some "xAby", none, none, some 0⟩)
        ∨ ciSubstrOpt "ab" (Article.author ⟨1, some "xAby", none, none, some 0⟩)))
    ∧ (rowMatchB "ab" "bob" ⟨2, some "xAby", some "bob", none, some 0⟩ = true ↔
        ((ciSubstrOpt "ab" (Article.title ⟨2, some "xAby", some "bob", none, some 0⟩)
            ∨ ciSubstrOpt "ab" (Article.author ⟨2, some "xAby", some "bob", none, some 0⟩))
          ∧ Article.author ⟨2, some "xAby", some "bob", none, some 0⟩ = some "bob")) :=
  ⟨(search_filter_ci_substring "ab" "x" ⟨1, some "xAby", none, none, some 0⟩
      (by decide) (by decide)).1,
   (search_filter_ci_substring "ab" "bob" ⟨2, some "xAby", some "bob", none, some 0⟩
      (by decide) (by decide)).2 (by decide)⟩
